import Mathlib

/-!
Verification of the clinic booking portal's identity, access-control and
data-rights core against its specification.  The frontend (script.js) and the
SQL schema are embedded directly from the source; backend components that the
repository only documents (credential store, rate limiter, token service,
authorization engine, GDPR engine) are modelled from the specification text,
as marked on each definition.
-/

namespace Clinic

/-- Role of an account: the repository has exactly two user classes
(patients and doctors/clinicians), per the schema's two credential tables. -/
inductive Role
  | Patient
  | Clinician
deriving DecidableEq

/-- Account status per spec section 3: Active, Restricted (GDPR restriction
while retained records remain) or Erased. -/
inductive Status
  | Active
  | Restricted
  | Erased
deriving DecidableEq

/-- Claims extracted from a verified token: subject id, role, and the
account status consulted by policy rule 1. -/
structure Claims where
  id : Nat
  role : Role
  status : Status
deriving DecidableEq

/-- Actions mediated by the policy engine. -/
inductive Action
  | Read
  | Write
deriving DecidableEq

/-- Resource references the policy engine decides over: appointments and
medical notes carry the owning patient and doctor ids from the schema;
listing endpoints and GDPR requests are the other guarded resources. -/
inductive ResourceRef
  | Appointment (patient_id : Nat) (doctor_id : Nat)
  | MedicalNote (patient_id : Nat) (doctor_id : Nat)
  | GdprRequest (owner_id : Nat) (isPending : Bool)
  | PatientsList
  | DoctorsList
deriving DecidableEq

/-- Authorization decision: Allow, or Deny with a reason. -/
inductive Decision
  | Allow
  | Deny (reason : String)
deriving DecidableEq

/-- Modelled from the spec: rule 1's exception, an erased or restricted
account may still act on its own pending GDPR request. -/
def ownPendingGdpr (c : Claims) : ResourceRef → Bool
  | ResourceRef.GdprRequest owner isPending => owner == c.id && isPending
  | _ => false

/-- Modelled from the spec: the pure decision function of section 4.4
(the backend enforcing it is absent from the repository).  Rules are
evaluated in the spec's precedence order, first match wins:
1. erased/restricted accounts are denied everything except their own pending
GDPR requests; 2. a patient may act only on rows with their own patient_id
and may never write a medical note; 3. a clinician may read/write their own
medical notes and read their own appointments; 4. listing endpoints are
readable by the opposite role only; 5. default deny. -/
def authorize (c : Claims) (a : Action) (r : ResourceRef) : Decision :=
  if c.status ≠ Status.Active then
    if ownPendingGdpr c r then Decision.Allow
    else Decision.Deny "account erased or restricted"
  else
    match c.role, r with
    | Role.Patient, ResourceRef.Appointment pid _ =>
        if pid == c.id then Decision.Allow
        else Decision.Deny "not the patient of this appointment"
    | Role.Patient, ResourceRef.MedicalNote pid _ =>
        if pid == c.id && a == Action.Read then Decision.Allow
        else Decision.Deny "patients may only read their own medical notes"
    | Role.Clinician, ResourceRef.MedicalNote _ did =>
        if did == c.id then Decision.Allow
        else Decision.Deny "not the authoring clinician"
    | Role.Clinician, ResourceRef.Appointment _ did =>
        if did == c.id && a == Action.Read then Decision.Allow
        else Decision.Deny "clinicians may only read their own appointments"
    | Role.Clinician, ResourceRef.PatientsList =>
        if a == Action.Read then Decision.Allow
        else Decision.Deny "listing endpoints are read-only"
    | Role.Patient, ResourceRef.DoctorsList =>
        if a == Action.Read then Decision.Allow
        else Decision.Deny "listing endpoints are read-only"
    | _, ResourceRef.GdprRequest owner _ =>
        if owner == c.id then Decision.Allow
        else Decision.Deny "may only target own GDPR requests"
    | _, _ => Decision.Deny "default deny"

/-- C1: a patient actor is never granted write access to a medical note:
for every patient claims value and every medical-note resource, the
authorization decision for a write is Deny. -/
theorem patient_never_writes_medical_note (c : Claims) (pid did : Nat)
    (h : c.role = Role.Patient) :
    ∃ reason, authorize c Action.Write (ResourceRef.MedicalNote pid did) =
      Decision.Deny reason := by
  unfold authorize
  by_cases hs : c.status = Status.Active
  · simp only [hs, ne_eq, not_true_eq_false, if_false, h]
    refine ⟨"patients may only read their own medical notes", ?_⟩
    simp
  · simp only [ne_eq, hs, not_false_eq_true, if_true, ownPendingGdpr]
    exact ⟨"account erased or restricted", rfl⟩

/-- Witness for C1 at a concrete patient and note. -/
theorem patient_never_writes_medical_note_witness :
    ∃ reason,
      authorize ⟨1, Role.Patient, Status.Active⟩ Action.Write
        (ResourceRef.MedicalNote 1 2) = Decision.Deny reason :=
  patient_never_writes_medical_note ⟨1, Role.Patient, Status.Active⟩ 1 2 rfl

/-- C7: the authorize function is total and deterministic: every triple maps
to a decision (Allow, or Deny with some reason) without any error outcome,
and equal triples receive equal decisions. -/
theorem authorize_total_deterministic (c c' : Claims) (a a' : Action)
    (r r' : ResourceRef) (hc : c = c') (ha : a = a') (hr : r = r') :
    (authorize c a r = Decision.Allow ∨
      ∃ s, authorize c a r = Decision.Deny s) ∧
    authorize c a r = authorize c' a' r' := by
  subst hc; subst ha; subst hr
  refine ⟨?_, rfl⟩
  cases h : authorize c a r with
  | Allow => exact Or.inl rfl
  | Deny s => exact Or.inr ⟨s, rfl⟩

/-- Witness for C7 at a concrete triple. -/
theorem authorize_total_deterministic_witness :
    (authorize ⟨3, Role.Clinician, Status.Active⟩ Action.Read
        ResourceRef.PatientsList = Decision.Allow ∨
      ∃ s, authorize ⟨3, Role.Clinician, Status.Active⟩ Action.Read
        ResourceRef.PatientsList = Decision.Deny s) ∧
    authorize ⟨3, Role.Clinician, Status.Active⟩ Action.Read
        ResourceRef.PatientsList =
      authorize ⟨3, Role.Clinician, Status.Active⟩ Action.Read
        ResourceRef.PatientsList :=
  authorize_total_deterministic ⟨3, Role.Clinician, Status.Active⟩
    ⟨3, Role.Clinician, Status.Active⟩ Action.Read Action.Read
    ResourceRef.PatientsList ResourceRef.PatientsList rfl rfl rfl

/-- Truthiness of a JavaScript string-or-null value: null and the empty
string are falsy, every other string is truthy. -/
def jsTruthy : Option String → Bool
  | none => false
  | some s => s != ""

/-- The three localStorage keys the frontend uses (script.js):
authToken, currentUser (a JSON string) and userType. -/
structure LocalStorage where
  authToken : Option String
  currentUser : Option String
  userType : Option String
deriving DecidableEq

/-- The frontend's module-level mutable state (script.js lines 1-8):
the currentUser and authToken globals, the currentUserType toggle, plus the
persisted localStorage. -/
structure ClientState where
  authToken : Option String
  currentUser : Option String
  currentUserType : String
  storage : LocalStorage
deriving DecidableEq

/-- The Authorization header apiRequest attaches (script.js lines 114-116):
present exactly when the global authToken is truthy, carrying the Bearer
scheme. -/
def authHeader (tok : Option String) : Option String :=
  match tok with
  | some t => if t != "" then some ("Bearer " ++ t) else none
  | none => none

/-- The header apiRequest sends in a given client state: it reads the
authToken global, not a per-request argument. -/
def clientAuthHeader (s : ClientState) : Option String :=
  authHeader s.authToken

/-- A parsed JSON response body: its error field (possibly absent) and the
rest of the payload. -/
structure RespBody where
  error : Option String
  payload : String
deriving DecidableEq

/-- An HTTP response as apiRequest sees it after response.json() succeeds. -/
structure HttpResponse where
  ok : Bool
  status : Nat
  body : RespBody
deriving DecidableEq

/-- The generic message apiRequest builds from the HTTP status
(script.js line 123). -/
def httpErrorMessage (status : Nat) : String :=
  "HTTP error! status: " ++ toString status

/-- Result of apiRequest (script.js lines 104-131): the parsed body on an ok
response, otherwise a thrown Error whose message is the body's error field
when that field is truthy, else the generic status message. -/
def apiRequestResult (resp : HttpResponse) : Except String RespBody :=
  if resp.ok then Except.ok resp.body
  else
    Except.error
      (match resp.body.error with
       | some e => if e != "" then e else httpErrorMessage resp.status
       | none => httpErrorMessage resp.status)

/-- The success payload handleLogin consumes: access_token and the user
object (kept abstract as its JSON string). -/
structure LoginResponse where
  access_token : String
  user : String
deriving DecidableEq

/-- State transition of a successful handleLogin (script.js lines 217-233):
the token and user are written to the globals and to localStorage, together
with the current userType toggle. -/
def handleLoginSuccess (s : ClientState) (resp : LoginResponse) : ClientState :=
  { authToken := some resp.access_token
    currentUser := some resp.user
    currentUserType := s.currentUserType
    storage :=
      { authToken := some resp.access_token
        currentUser := some resp.user
        userType := some s.currentUserType } }

/-- The globals before any login (script.js lines 1-5), over a given
persisted storage. -/
def initialClientState (st : LocalStorage) : ClientState :=
  { authToken := none, currentUser := none, currentUserType := "patient"
    storage := st }

/-- The DOMContentLoaded restore (script.js lines 11-20): when both stored
values are truthy the globals are repopulated from localStorage. -/
def initClient (st : LocalStorage) : ClientState :=
  if jsTruthy st.authToken && jsTruthy st.currentUser then
    { authToken := st.authToken, currentUser := st.currentUser
      currentUserType := "patient", storage := st }
  else initialClientState st

/-- Calls a frontend function may issue to the backend: a token-revocation
call or any other endpoint. -/
inductive ServerCall
  | revokeAllCall (accountId : Nat)
  | otherCall (endpoint : String)
deriving DecidableEq

/-- The logout function (script.js lines 282-296): it nulls the two globals,
removes the three localStorage keys, manipulates the DOM, and issues no
request to the backend whatsoever. -/
def logout (s : ClientState) : ClientState × List ServerCall :=
  ({ authToken := none, currentUser := none
     currentUserType := s.currentUserType
     storage := { authToken := none, currentUser := none, userType := none } },
   [])

/-- Which dashboard variant showDashboard displays. -/
inductive Dashboard
  | patientView
  | doctorView
deriving DecidableEq

/-- The userType value showDashboard computes (script.js line 313):
the stored string when truthy, with the default of the logical-or idiom
otherwise. -/
def effectiveUserType (stored : Option String) : String :=
  match stored with
  | some s => if s != "" then s else "patient"
  | none => "patient"

/-- The dashboard branch taken by showDashboard (script.js lines 313-323). -/
def showDashboardChoice (s : ClientState) : Dashboard :=
  if effectiveUserType s.storage.userType == "patient" then Dashboard.patientView
  else Dashboard.doctorView

/-- Endpoints requested by loadPatientData (script.js lines 326-339). -/
def loadPatientDataRequests : List String :=
  ["/appointments", "/medical-notes"]

/-- Endpoints requested by loadDoctorData (script.js lines 377-394). -/
def loadDoctorDataRequests : List String :=
  ["/appointments", "/medical-notes", "/patients"]

/-- Data-loading requests issued for a dashboard variant. -/
def dashboardRequests : Dashboard → List String
  | Dashboard.patientView => loadPatientDataRequests
  | Dashboard.doctorView => loadDoctorDataRequests

/-- Data-loading requests issued by showDashboard in a given client state. -/
def showDashboardRequests (s : ClientState) : List String :=
  dashboardRequests (showDashboardChoice s)

/-- C9 counterexample: the claim says the Authorization header is attached
if and only if the global authToken is non-null, but for the non-null yet
falsy token consisting of the empty string no header is attached. -/
theorem apiRequest_header_nonnull_counterexample :
    authHeader (some "") = none ∧ (some "" : Option String) ≠ none := by
  constructor
  · simp [authHeader]
  · simp

/-- C9 (amended): apiRequest returns the parsed body exactly on an ok
response; on a non-ok response it throws, carrying the body's truthy error
field or else the generic status message, and never returns a success value;
the Authorization header is attached if and only if the global authToken is
truthy (non-null and non-empty). -/
theorem apiRequest_ok_error_and_header (resp : HttpResponse)
    (tok : Option String) :
    (resp.ok = true → apiRequestResult resp = Except.ok resp.body) ∧
    (resp.ok = false → ∀ b, apiRequestResult resp ≠ Except.ok b) ∧
    (resp.ok = false → ∀ e, resp.body.error = some e → e ≠ "" →
      apiRequestResult resp = Except.error e) ∧
    (resp.ok = false → resp.body.error = none →
      apiRequestResult resp = Except.error (httpErrorMessage resp.status)) ∧
    (authHeader tok).isSome = jsTruthy tok := by
  refine ⟨?_, ?_, ?_, ?_, ?_⟩
  · intro h; simp [apiRequestResult, h]
  · intro h b; simp [apiRequestResult, h]
  · intro h e he hne
    simp [apiRequestResult, h, he, hne]
  · intro h he; simp [apiRequestResult, h, he]
  · cases tok with
    | none => simp [authHeader, jsTruthy]
    | some t =>
        by_cases ht : t = "" <;> simp [authHeader, jsTruthy, ht]

/-- Witness for C9 at a concrete ok response, a concrete failing response
and a concrete token. -/
theorem apiRequest_ok_error_and_header_witness :
    apiRequestResult ⟨true, 200, ⟨none, "data"⟩⟩ =
      Except.ok (⟨none, "data"⟩ : RespBody) ∧
    apiRequestResult ⟨false, 401, ⟨some "Invalid credentials", "x"⟩⟩ =
      Except.error "Invalid credentials" ∧
    (authHeader (some "tok123")).isSome = jsTruthy (some "tok123") :=
  ⟨(apiRequest_ok_error_and_header ⟨true, 200, ⟨none, "data"⟩⟩ none).1 rfl,
   (apiRequest_ok_error_and_header ⟨false, 401, ⟨some "Invalid credentials", "x"⟩⟩
      none).2.2.1 rfl "Invalid credentials" rfl (by decide),
   (apiRequest_ok_error_and_header ⟨true, 200, ⟨none, "data"⟩⟩
      (some "tok123")).2.2.2.2⟩

/-- C10: the dashboard variant and its data-loading requests are determined
solely by the localStorage userType string, defaulting to the patient view
when it is absent, independently of anything else in the client state; the
doctor value alone switches to the doctor dashboard, whose loads include
the request to the patients listing. -/
theorem showDashboard_determined_by_userType (s s' : ClientState)
    (h : s.storage.userType = s'.storage.userType) :
    (showDashboardChoice s = showDashboardChoice s' ∧
      showDashboardRequests s = showDashboardRequests s') ∧
    (s.storage.userType = none →
      showDashboardChoice s = Dashboard.patientView) ∧
    (s.storage.userType = some "patient" →
      showDashboardChoice s = Dashboard.patientView ∧
      "/patients" ∉ showDashboardRequests s) ∧
    (s.storage.userType = some "doctor" →
      showDashboardChoice s = Dashboard.doctorView ∧
      "/patients" ∈ showDashboardRequests s) := by
  refine ⟨⟨?_, ?_⟩, ?_, ?_, ?_⟩
  · simp [showDashboardChoice, h]
  · simp [showDashboardRequests, showDashboardChoice, h]
  · intro h1; simp [showDashboardChoice, effectiveUserType, h1]
  · intro h1
    constructor
    · simp [showDashboardChoice, effectiveUserType, h1]
    · simp [showDashboardRequests, showDashboardChoice, effectiveUserType, h1,
        dashboardRequests, loadPatientDataRequests]
  · intro h1
    constructor
    · simp [showDashboardChoice, effectiveUserType, h1]
    · simp [showDashboardRequests, showDashboardChoice, effectiveUserType, h1,
        dashboardRequests, loadDoctorDataRequests]

/-- Witness for C10: a client state whose stored userType is the doctor
string gets the doctor dashboard and its loads request the patients
listing. -/
theorem showDashboard_determined_by_userType_witness :
    showDashboardChoice
        ⟨some "t", some "u", "patient", ⟨some "t", some "u", some "doctor"⟩⟩ =
      Dashboard.doctorView ∧
    "/patients" ∈ showDashboardRequests
        ⟨some "t", some "u", "patient", ⟨some "t", some "u", some "doctor"⟩⟩ :=
  (showDashboard_determined_by_userType
    ⟨some "t", some "u", "patient", ⟨some "t", some "u", some "doctor"⟩⟩
    ⟨some "t", some "u", "patient", ⟨some "t", some "u", some "doctor"⟩⟩
    rfl).2.2.2 rfl

/-- C8 counterexample: after a successful login the token is cached in the
persisted localStorage and in the authToken global, the Authorization header
is derived from that ambient global, and a later page load restores identity
from localStorage — so identity is read from and cached as ambient state,
contradicting the claim. -/
theorem session_cached_counterexample :
    (handleLoginSuccess (initialClientState ⟨none, none, none⟩)
        ⟨"tok123", "alice"⟩).storage.authToken = some "tok123" ∧
    (some "tok123" : Option String) ≠ none ∧
    (handleLoginSuccess (initialClientState ⟨none, none, none⟩)
        ⟨"tok123", "alice"⟩).authToken = some "tok123" ∧
    clientAuthHeader (handleLoginSuccess (initialClientState ⟨none, none, none⟩)
        ⟨"tok123", "alice"⟩) = some "Bearer tok123" ∧
    (initClient (handleLoginSuccess (initialClientState ⟨none, none, none⟩)
        ⟨"tok123", "alice"⟩).storage).authToken = some "tok123" := by
  refine ⟨rfl, by simp, rfl, ?_, ?_⟩
  · simp [clientAuthHeader, authHeader, handleLoginSuccess, initialClientState]
  · simp [initClient, jsTruthy, handleLoginSuccess, initialClientState]

/-- C8 (amended): the frontend keeps identity as ambient state: handleLogin
caches the token and user in the globals and in localStorage, the page-load
hook restores them from localStorage when truthy, and apiRequest derives its
Authorization header from the authToken global rather than from a token
passed explicitly into the call. -/
theorem session_state_is_ambient (s : ClientState) (resp : LoginResponse)
    (st : LocalStorage) (t u : String) (ht : st.authToken = some t)
    (hu : st.currentUser = some u) (ht' : t ≠ "") (hu' : u ≠ "") :
    (handleLoginSuccess s resp).authToken = some resp.access_token ∧
    (handleLoginSuccess s resp).storage.authToken = some resp.access_token ∧
    (handleLoginSuccess s resp).storage.currentUser = some resp.user ∧
    (handleLoginSuccess s resp).storage.userType = some s.currentUserType ∧
    (initClient st).authToken = some t ∧
    (initClient st).currentUser = some u ∧
    clientAuthHeader (initClient st) = some ("Bearer " ++ t) := by
  refine ⟨rfl, rfl, rfl, rfl, ?_, ?_, ?_⟩
  · simp [initClient, jsTruthy, ht, hu, ht', hu']
  · simp [initClient, jsTruthy, ht, hu, ht', hu']
  · simp [clientAuthHeader, initClient, jsTruthy, authHeader, ht, hu, ht', hu']

/-- Witness for C8 at a concrete login and a concrete stored session. -/
theorem session_state_is_ambient_witness :
    (handleLoginSuccess (initialClientState ⟨none, none, none⟩)
        ⟨"tk", "alice"⟩).authToken = some "tk" ∧
    (handleLoginSuccess (initialClientState ⟨none, none, none⟩)
        ⟨"tk", "alice"⟩).storage.authToken = some "tk" ∧
    (handleLoginSuccess (initialClientState ⟨none, none, none⟩)
        ⟨"tk", "alice"⟩).storage.currentUser = some "alice" ∧
    (handleLoginSuccess (initialClientState ⟨none, none, none⟩)
        ⟨"tk", "alice"⟩).storage.userType = some "patient" ∧
    (initClient ⟨some "tk", some "alice", some "doctor"⟩).authToken =
      some "tk" ∧
    (initClient ⟨some "tk", some "alice", some "doctor"⟩).currentUser =
      some "alice" ∧
    clientAuthHeader (initClient ⟨some "tk", some "alice", some "doctor"⟩) =
      some ("Bearer " ++ "tk") :=
  session_state_is_ambient (initialClientState ⟨none, none, none⟩)
    ⟨"tk", "alice"⟩ ⟨some "tk", some "alice", some "doctor"⟩ "tk" "alice"
    rfl rfl (by decide) (by decide)

/-- Modelled from the spec: a session token of section 4.3 — subject id,
role, issued-at, expiry, and the revocation epoch it was stamped with
(the token service is absent from the repository). -/
structure Token where
  sub : Nat
  role : Role
  issuedAt : Nat
  expiry : Nat
  epoch : Nat
deriving DecidableEq

/-- Modelled from the spec: the only persisted token-service state, the
current revocation epoch per account (default zero). -/
structure ServerState where
  epochs : List (Nat × Nat)
deriving DecidableEq

/-- Current revocation epoch of an account. -/
def epochOf (srv : ServerState) (accountId : Nat) : Nat :=
  match srv.epochs.find? (fun p => p.fst == accountId) with
  | some p => p.snd
  | none => 0

/-- Token-verification failures of section 4.3. -/
inductive TokenError
  | Expired
  | Malformed
  | EpochStale
  | UnknownSubject
deriving DecidableEq

/-- Outcome of authenticate: claims (subject and role) or a TokenError. -/
inductive AuthenticateResult
  | ok (sub : Nat) (role : Role)
  | err (e : TokenError)
deriving DecidableEq

/-- Modelled from the spec: authenticate checks expiry and that the token's
embedded epoch equals the account's current epoch, rejecting stale tokens
with EpochStale. -/
def authenticate (srv : ServerState) (now : Nat) (tok : Token) :
    AuthenticateResult :=
  if tok.expiry ≤ now then AuthenticateResult.err TokenError.Expired
  else if tok.epoch != epochOf srv tok.sub then
    AuthenticateResult.err TokenError.EpochStale
  else AuthenticateResult.ok tok.sub tok.role

/-- Modelled from the spec: issue stamps issued-at, expiry and the account's
current revocation epoch. -/
def issue (srv : ServerState) (accountId : Nat) (role : Role)
    (now ttl : Nat) : Token :=
  { sub := accountId, role := role, issuedAt := now, expiry := now + ttl
    epoch := epochOf srv accountId }

/-- Modelled from the spec: revokeAll bumps the account's revocation epoch,
invalidating every outstanding token for that account. -/
def revokeAll (srv : ServerState) (accountId : Nat) : ServerState :=
  { epochs :=
      (accountId, epochOf srv accountId + 1) ::
        srv.epochs.filter (fun p => p.fst != accountId) }

/-- Effect of a list of frontend-issued calls on the token-service state:
a revocation call bumps the epoch, anything else leaves it unchanged. -/
def applyServerCalls (srv : ServerState) : List ServerCall → ServerState
  | [] => srv
  | ServerCall.revokeAllCall a :: rest => applyServerCalls (revokeAll srv a) rest
  | ServerCall.otherCall _ :: rest => applyServerCalls srv rest

/-- The epoch after revokeAll is the successor of the epoch before. -/
theorem epochOf_revokeAll (srv : ServerState) (a : Nat) :
    epochOf (revokeAll srv a) a = epochOf srv a + 1 := by
  simp [epochOf, revokeAll, List.find?]

/-- C4 counterexample: a token issued at the current epoch of a fresh
server, unexpired at the time of the next call, still authenticates
successfully after the client's logout — logout contacts no server, so no
epoch bump occurs and the result is not EpochStale as the claim requires. -/
theorem logout_counterexample :
    (logout (initialClientState ⟨none, none, none⟩)).2 = [] ∧
    authenticate
        (applyServerCalls ⟨[]⟩
          (logout (initialClientState ⟨none, none, none⟩)).2)
        50 (issue ⟨[]⟩ 1 Role.Patient 0 100) =
      AuthenticateResult.ok 1 Role.Patient ∧
    authenticate
        (applyServerCalls ⟨[]⟩
          (logout (initialClientState ⟨none, none, none⟩)).2)
        50 (issue ⟨[]⟩ 1 Role.Patient 0 100) ≠
      AuthenticateResult.err TokenError.EpochStale := by
  refine ⟨rfl, ?_, ?_⟩ <;>
    simp [logout, initialClientState, applyServerCalls, authenticate, issue,
      epochOf, List.find?]

/-- C4 (amended): logout only clears the client-side session state (the two
globals and the three localStorage keys) and issues no server call, so the
revocation epoch is unchanged and any token that authenticated before the
logout still authenticates afterwards; by contrast an actual revokeAll on
the token's subject makes that same token fail with EpochStale. -/
theorem logout_does_not_revoke (s : ClientState) (srv : ServerState)
    (tok : Token) (now : Nat)
    (h : authenticate srv now tok = AuthenticateResult.ok tok.sub tok.role) :
    (logout s).1.authToken = none ∧
    (logout s).1.currentUser = none ∧
    (logout s).1.storage = ⟨none, none, none⟩ ∧
    (logout s).2 = [] ∧
    authenticate (applyServerCalls srv (logout s).2) now tok =
      AuthenticateResult.ok tok.sub tok.role ∧
    authenticate (revokeAll srv tok.sub) now tok =
      AuthenticateResult.err TokenError.EpochStale := by
  refine ⟨rfl, rfl, rfl, rfl, ?_, ?_⟩
  · simpa [logout, applyServerCalls] using h
  · unfold authenticate at h ⊢
    by_cases hexp : tok.expiry ≤ now
    · simp [hexp] at h
    · simp only [hexp, if_false]
      by_cases hep : tok.epoch = epochOf srv tok.sub
      · simp [epochOf_revokeAll, hep]
      · simp [hexp, hep] at h

/-- Witness for C4 at a concrete server state, token and clock. -/
theorem logout_does_not_revoke_witness :
    (logout (initialClientState ⟨none, none, none⟩)).1.authToken = none ∧
    (logout (initialClientState ⟨none, none, none⟩)).1.currentUser = none ∧
    (logout (initialClientState ⟨none, none, none⟩)).1.storage =
      ⟨none, none, none⟩ ∧
    (logout (initialClientState ⟨none, none, none⟩)).2 = [] ∧
    authenticate
        (applyServerCalls ⟨[(7, 3)]⟩
          (logout (initialClientState ⟨none, none, none⟩)).2)
        10 (⟨7, Role.Clinician, 0, 60, 3⟩ : Token) =
      AuthenticateResult.ok 7 Role.Clinician ∧
    authenticate (revokeAll ⟨[(7, 3)]⟩ 7) 10
        (⟨7, Role.Clinician, 0, 60, 3⟩ : Token) =
      AuthenticateResult.err TokenError.EpochStale :=
  logout_does_not_revoke (initialClientState ⟨none, none, none⟩) ⟨[(7, 3)]⟩
    ⟨7, Role.Clinician, 0, 60, 3⟩ 10 (by decide)

/-- A row of the patients table (schema.sql): the UNIQUE constraint is on
the email column of this table alone. -/
structure PatientRow where
  patient_id : Nat
  first_name : String
  last_name : String
  email : String
  password_hash : String
deriving DecidableEq

/-- A row of the doctors table (schema.sql): its UNIQUE email constraint is
likewise scoped to this table alone. -/
structure DoctorRow where
  doctor_id : Nat
  first_name : String
  last_name : String
  email : String
  password_hash : String
deriving DecidableEq

/-- The two credential tables of the schema. -/
structure ClinicDb where
  patients : List PatientRow
  doctors : List DoctorRow
deriving DecidableEq

/-- Outcome of an account-creating insert. -/
inductive CreateResult
  | created
  | duplicateIdentity
deriving DecidableEq

/-- Insert into the patients table: rejected exactly when the UNIQUE
constraint on patients.email is violated, i.e. when the same email string
already appears in the patients table. -/
def insertPatient (db : ClinicDb) (row : PatientRow) : CreateResult × ClinicDb :=
  if db.patients.any (fun p => p.email == row.email) then
    (CreateResult.duplicateIdentity, db)
  else
    (CreateResult.created, { db with patients := db.patients ++ [row] })

/-- Insert into the doctors table: rejected exactly when the same email
string already appears in the doctors table. -/
def insertDoctor (db : ClinicDb) (row : DoctorRow) : CreateResult × ClinicDb :=
  if db.doctors.any (fun d => d.email == row.email) then
    (CreateResult.duplicateIdentity, db)
  else
    (CreateResult.created, { db with doctors := db.doctors ++ [row] })

/-- Pairwise-distinct emails within the patients table. -/
def patientEmailsUnique (db : ClinicDb) : Prop :=
  db.patients.Pairwise (fun a b => a.email ≠ b.email)

/-- Pairwise-distinct emails within the doctors table. -/
def doctorEmailsUnique (db : ClinicDb) : Prop :=
  db.doctors.Pairwise (fun a b => a.email ≠ b.email)

/-- C3 counterexample: the email of an existing patient is accepted for a
new doctor account, so the same login email exists under both roles and
create does not return DuplicateIdentity even though the email already
exists under the other role — cross-role uniqueness fails. -/
theorem email_cross_role_counterexample :
    (insertDoctor
        ⟨[⟨1, "Alice", "Shaw", "alice@clinic.test", "h1"⟩], []⟩
        ⟨1, "Alan", "Shaw", "alice@clinic.test", "h2"⟩).1 =
      CreateResult.created ∧
    ((insertDoctor
        ⟨[⟨1, "Alice", "Shaw", "alice@clinic.test", "h1"⟩], []⟩
        ⟨1, "Alan", "Shaw", "alice@clinic.test", "h2"⟩).2.patients.any
      (fun p => p.email == "alice@clinic.test")) = true ∧
    ((insertDoctor
        ⟨[⟨1, "Alice", "Shaw", "alice@clinic.test", "h1"⟩], []⟩
        ⟨1, "Alan", "Shaw", "alice@clinic.test", "h2"⟩).2.doctors.any
      (fun d => d.email == "alice@clinic.test")) = true := by
  refine ⟨?_, ?_, ?_⟩ <;> decide

/-- C3 (amended): email uniqueness is enforced per table only — an insert
returns DuplicateIdentity exactly when the same email already exists under
the same role, per-table uniqueness is preserved by successful inserts, and
an email already present under the patient role does not block creation of
a doctor account with that email. -/
theorem email_unique_per_role (db : ClinicDb) (p : PatientRow)
    (d : DoctorRow) (hp : patientEmailsUnique db) :
    ((insertPatient db p).1 = CreateResult.duplicateIdentity ↔
      ∃ q ∈ db.patients, q.email = p.email) ∧
    patientEmailsUnique (insertPatient db p).2 ∧
    ((insertDoctor db d).1 = CreateResult.duplicateIdentity ↔
      ∃ q ∈ db.doctors, q.email = d.email) ∧
    ((∀ q ∈ db.doctors, q.email ≠ d.email) →
      (insertDoctor db d).1 = CreateResult.created) := by
  refine ⟨?_, ?_, ?_, ?_⟩
  · by_cases h : db.patients.any (fun q => q.email == p.email)
    · have hex : ∃ q ∈ db.patients, q.email = p.email := by simpa using h
      simp [insertPatient, h, hex]
    · constructor
      · intro hcontra
        simp [insertPatient, h] at hcontra
      · intro ⟨q, hq, hqe⟩
        exact absurd (by simpa using ⟨q, hq, hqe⟩) h
  · by_cases h : db.patients.any (fun q => q.email == p.email)
    · have hsame : (insertPatient db p).2 = db := by simp [insertPatient, h]
      rw [hsame]
      exact hp
    · have hnew : (insertPatient db p).2.patients = db.patients ++ [p] := by
        simp [insertPatient, h]
      unfold patientEmailsUnique at hp ⊢
      rw [hnew, List.pairwise_append]
      refine ⟨hp, List.pairwise_singleton _ _, ?_⟩
      intro a ha b hb
      simp only [List.mem_singleton] at hb
      subst hb
      intro hcontra
      refine h ?_
      simp only [List.any_eq_true, beq_iff_eq]
      exact ⟨a, ha, hcontra⟩
  · by_cases h : db.doctors.any (fun q => q.email == d.email)
    · have hex : ∃ q ∈ db.doctors, q.email = d.email := by simpa using h
      simp [insertDoctor, h, hex]
    · constructor
      · intro hcontra
        simp [insertDoctor, h] at hcontra
      · intro ⟨q, hq, hqe⟩
        exact absurd (by simpa using ⟨q, hq, hqe⟩) h
  · intro hnone
    have h : db.doctors.any (fun q => q.email == d.email) = false := by
      simp only [List.any_eq_false, beq_iff_eq]
      intro q hq
      exact hnone q hq
    simp [insertDoctor, h]

/-- Witness for C3 at a concrete database. -/
theorem email_unique_per_role_witness :
    ((insertPatient ⟨[⟨1, "A", "S", "a@x.test", "h"⟩], []⟩
        ⟨2, "B", "T", "a@x.test", "h2"⟩).1 =
      CreateResult.duplicateIdentity ↔
      ∃ q ∈ [(⟨1, "A", "S", "a@x.test", "h"⟩ : PatientRow)],
        q.email = "a@x.test") ∧
    patientEmailsUnique (insertPatient ⟨[⟨1, "A", "S", "a@x.test", "h"⟩], []⟩
        ⟨2, "B", "T", "a@x.test", "h2"⟩).2 ∧
    ((insertDoctor ⟨[⟨1, "A", "S", "a@x.test", "h"⟩], []⟩
        ⟨3, "C", "U", "a@x.test", "h3"⟩).1 =
      CreateResult.duplicateIdentity ↔
      ∃ q ∈ ([] : List DoctorRow), q.email = "a@x.test") ∧
    ((∀ q ∈ ([] : List DoctorRow), q.email ≠ "a@x.test") →
      (insertDoctor ⟨[⟨1, "A", "S", "a@x.test", "h"⟩], []⟩
        ⟨3, "C", "U", "a@x.test", "h3"⟩).1 = CreateResult.created) :=
  email_unique_per_role ⟨[⟨1, "A", "S", "a@x.test", "h"⟩], []⟩
    ⟨2, "B", "T", "a@x.test", "h2"⟩ ⟨3, "C", "U", "a@x.test", "h3"⟩
    (List.pairwise_singleton _ _)

/-- Modelled from the spec: an account record of the credential store
(section 4.1) — id, case-insensitively unique email, role and the stored
secret hash (the backend store is absent from the repository). -/
structure CAccount where
  accountId : Nat
  email : String
  role : Role
  secretHash : Nat
deriving DecidableEq

/-- Lowercasing of an ASCII character, for case-insensitive email
comparison. -/
def lowerChar (c : Char) : Char :=
  if 65 ≤ c.toNat ∧ c.toNat ≤ 90 then Char.ofNat (c.toNat + 32) else c

/-- Lowercasing of a string, character by character. -/
def lowerString (s : String) : String :=
  ⟨s.data.map lowerChar⟩

/-- The login identity of an account: its lowercased email and role. -/
def credKey (a : CAccount) : String × Role := (lowerString a.email, a.role)

/-- Modelled from the spec: a stand-in for the slow one-way secret hash
(bcrypt in the repository's documentation); only its one-way use matters
here, not its strength. -/
def hashSecret (s : String) : Nat :=
  s.data.foldl (fun h c => (h * 31 + c.toNat) % 1000003) 7

/-- Account lookup by case-insensitive email and role. -/
def findAccount (accounts : List CAccount) (email : String) (role : Role) :
    Option CAccount :=
  accounts.find?
    (fun b => decide (lowerString b.email = lowerString email ∧ b.role = role))

/-- Outcome of verify: the account id, or the single generic failure value
that carries no distinction between unknown email and wrong secret. -/
inductive VerifyOutcome
  | ok (accountId : Nat)
  | authFailure
deriving DecidableEq

/-- Modelled from the spec: verify of section 4.1 — look the identity up,
compare hashes, and collapse every failure into the one generic
AuthFailure value. -/
def verifyCredential (accounts : List CAccount) (email : String)
    (role : Role) (secret : String) : VerifyOutcome :=
  match findAccount accounts email role with
  | some a =>
      if hashSecret secret == a.secretHash then VerifyOutcome.ok a.accountId
      else VerifyOutcome.authFailure
  | none => VerifyOutcome.authFailure

/-- Lookup by an account's own identity finds exactly that account when
login identities are unique. -/
theorem findAccount_eq_of_mem (accounts : List CAccount) (a : CAccount)
    (hnd : (accounts.map credKey).Nodup) (ha : a ∈ accounts) :
    findAccount accounts a.email a.role = some a := by
  induction accounts with
  | nil => cases ha
  | cons b t ih =>
      simp only [List.map_cons, List.nodup_cons] at hnd
      rcases List.mem_cons.mp ha with hab | hat
      · subst hab
        unfold findAccount
        rw [List.find?_cons_of_pos]
        simp
      · unfold findAccount
        rw [List.find?_cons_of_neg]
        · have := ih hnd.2 hat
          unfold findAccount at this
          exact this
        · intro hcontra
          simp only [decide_eq_true_eq] at hcontra
          have hkey : credKey b = credKey a := by
            simp [credKey, hcontra.1, hcontra.2]
          exact hnd.1 (hkey ▸ List.mem_map_of_mem credKey hat)

/-- C5: verify with the correct secret returns the account's id; with an
incorrect secret it returns AuthFailure, and the very same AuthFailure
value is returned for an identity that exists in no account, so the result
does not distinguish an existing email with a wrong password from a
non-existent email. -/
theorem verify_correct_or_generic_failure (accounts : List CAccount)
    (a : CAccount) (secret wrongSecret otherEmail : String)
    (otherRole : Role) (hnd : (accounts.map credKey).Nodup)
    (ha : a ∈ accounts) (hsec : hashSecret secret = a.secretHash)
    (hwrong : hashSecret wrongSecret ≠ a.secretHash)
    (hmiss : ∀ b ∈ accounts, credKey b ≠ (lowerString otherEmail, otherRole)) :
    verifyCredential accounts a.email a.role secret =
      VerifyOutcome.ok a.accountId ∧
    verifyCredential accounts a.email a.role wrongSecret =
      VerifyOutcome.authFailure ∧
    verifyCredential accounts otherEmail otherRole wrongSecret =
      VerifyOutcome.authFailure ∧
    verifyCredential accounts a.email a.role wrongSecret =
      verifyCredential accounts otherEmail otherRole wrongSecret := by
  have hfind := findAccount_eq_of_mem accounts a hnd ha
  have hnone : findAccount accounts otherEmail otherRole = none := by
    unfold findAccount
    rw [List.find?_eq_none]
    intro b hb
    simp only [decide_eq_true_eq, not_and]
    intro hbe hbr
    exact absurd (by simp [credKey, hbe, hbr]) (hmiss b hb)
  refine ⟨?_, ?_, ?_, ?_⟩
  · simp [verifyCredential, hfind, hsec]
  · simp [verifyCredential, hfind, hwrong]
  · simp [verifyCredential, hnone]
  · simp [verifyCredential, hfind, hnone, hwrong]

/-- Witness for C5 at a concrete one-account store. -/
theorem verify_correct_or_generic_failure_witness :
    verifyCredential [⟨1, "Alice@Clinic.test", Role.Patient, hashSecret "pw"⟩]
        "Alice@Clinic.test" Role.Patient "pw" = VerifyOutcome.ok 1 ∧
    verifyCredential [⟨1, "Alice@Clinic.test", Role.Patient, hashSecret "pw"⟩]
        "Alice@Clinic.test" Role.Patient "guess" = VerifyOutcome.authFailure ∧
    verifyCredential [⟨1, "Alice@Clinic.test", Role.Patient, hashSecret "pw"⟩]
        "bob@clinic.test" Role.Patient "guess" = VerifyOutcome.authFailure ∧
    verifyCredential [⟨1, "Alice@Clinic.test", Role.Patient, hashSecret "pw"⟩]
        "Alice@Clinic.test" Role.Patient "guess" =
      verifyCredential [⟨1, "Alice@Clinic.test", Role.Patient, hashSecret "pw"⟩]
        "bob@clinic.test" Role.Patient "guess" :=
  verify_correct_or_generic_failure
    [⟨1, "Alice@Clinic.test", Role.Patient, hashSecret "pw"⟩]
    ⟨1, "Alice@Clinic.test", Role.Patient, hashSecret "pw"⟩
    "pw" "guess" "bob@clinic.test" Role.Patient
    (by decide) (List.mem_singleton.mpr rfl) rfl (by decide) (by decide)

/-- Modelled from the spec: rate-limiter configuration of section 4.2 —
the failure threshold and the sliding window length (for example 5
failures per 15 minutes). -/
structure RLConfig where
  threshold : Nat
  window : Nat
deriving DecidableEq

/-- A rate-limiter key: the (identity, origin) pair. -/
abbrev RLKey := String × String

/-- Modelled from the spec: the limiter's ephemeral state, failure
timestamps per (identity, origin) key. -/
abbrev RLState := List (RLKey × List Nat)

/-- Failure timestamps currently recorded for a key (none when absent). -/
def failuresFor (st : RLState) (k : RLKey) : List Nat :=
  match st.find? (fun p => decide (p.fst = k)) with
  | some p => p.snd
  | none => []

/-- Replace the failure list recorded for a key. -/
def setFailures (st : RLState) (k : RLKey) (fs : List Nat) : RLState :=
  (k, fs) :: st.filter (fun p => !(decide (p.fst = k)))

/-- Modelled from the spec: recordFailure appends the failed attempt's
timestamp under its key. -/
def recordFailure (st : RLState) (k : RLKey) (t : Nat) : RLState :=
  setFailures st k (failuresFor st k ++ [t])

/-- Modelled from the spec: recordSuccess resets the key's counter. -/
def recordSuccess (st : RLState) (k : RLKey) : RLState :=
  setFailures st k []

/-- Number of recorded failures still inside the sliding window at the
given instant. -/
def recentCount (cfg : RLConfig) (st : RLState) (k : RLKey) (now : Nat) :
    Nat :=
  ((failuresFor st k).filter (fun t => decide (now < t + cfg.window))).length

/-- Outcome of the limiter's check. -/
inductive RLCheck
  | Allowed
  | Locked
deriving DecidableEq

/-- Modelled from the spec: check returns Locked once the failures inside
the window reach the threshold. -/
def check (cfg : RLConfig) (st : RLState) (k : RLKey) (now : Nat) : RLCheck :=
  if cfg.threshold ≤ recentCount cfg st k now then RLCheck.Locked
  else RLCheck.Allowed

/-- Record a sequence of failures in order. -/
def recordFailures (st : RLState) (k : RLKey) (ts : List Nat) : RLState :=
  ts.foldl (fun s t => recordFailure s k t) st

/-- The failure list recorded for a key after setFailures. -/
theorem failuresFor_setFailures (st : RLState) (k : RLKey) (fs : List Nat) :
    failuresFor (setFailures st k fs) k = fs := by
  simp [failuresFor, setFailures, List.find?]

/-- Recording a sequence of failures appends their timestamps. -/
theorem failuresFor_recordFailures (ts : List Nat) (st : RLState)
    (k : RLKey) :
    failuresFor (recordFailures st k ts) k = failuresFor st k ++ ts := by
  induction ts generalizing st with
  | nil => simp [recordFailures]
  | cons t rest ih =>
      have step : recordFailures st k (t :: rest) =
          recordFailures (recordFailure st k t) k rest := rfl
      rw [step, ih, recordFailure, failuresFor_setFailures]
      simp

/-- C6: starting from a key with no recorded failures, after a sequence of
threshold-many failed attempts whose timestamps all lie inside the sliding
window, the next check for that key returns Locked; and a subsequent
success resets the key's failure counter to zero. -/
theorem lockout_after_threshold_failures (cfg : RLConfig) (k : RLKey)
    (st : RLState) (ts : List Nat) (now : Nat)
    (h0 : failuresFor st k = []) (hlen : ts.length = cfg.threshold)
    (hw : ∀ t ∈ ts, now < t + cfg.window) :
    check cfg (recordFailures st k ts) k now = RLCheck.Locked ∧
    failuresFor (recordSuccess (recordFailures st k ts) k) k = [] ∧
    recentCount cfg (recordSuccess (recordFailures st k ts) k) k now = 0 := by
  have hfs : failuresFor (recordFailures st k ts) k = ts := by
    rw [failuresFor_recordFailures, h0, List.nil_append]
  have hcount : recentCount cfg (recordFailures st k ts) k now = ts.length := by
    unfold recentCount
    rw [hfs]
    rw [List.filter_eq_self.mpr]
    intro t ht
    simpa using hw t ht
  refine ⟨?_, ?_, ?_⟩
  · simp [check, hcount, hlen]
  · exact failuresFor_setFailures _ _ _
  · unfold recentCount recordSuccess
    rw [failuresFor_setFailures]
    simp

/-- Witness for C6: five failures inside a 15-minute window lock the key,
and a success clears it. -/
theorem lockout_after_threshold_failures_witness :
    check ⟨5, 900⟩
        (recordFailures [] ("alice@clinic.test", "10.0.0.1")
          [10, 20, 30, 40, 50])
        ("alice@clinic.test", "10.0.0.1") 60 = RLCheck.Locked ∧
    failuresFor
        (recordSuccess
          (recordFailures [] ("alice@clinic.test", "10.0.0.1")
            [10, 20, 30, 40, 50])
          ("alice@clinic.test", "10.0.0.1"))
        ("alice@clinic.test", "10.0.0.1") = [] ∧
    recentCount ⟨5, 900⟩
        (recordSuccess
          (recordFailures [] ("alice@clinic.test", "10.0.0.1")
            [10, 20, 30, 40, 50])
          ("alice@clinic.test", "10.0.0.1"))
        ("alice@clinic.test", "10.0.0.1") 60 = 0 :=
  lockout_after_threshold_failures ⟨5, 900⟩ ("alice@clinic.test", "10.0.0.1")
    [] [10, 20, 30, 40, 50] 60 rfl rfl (by decide)

/-- Modelled from the spec: a dependent record of an account (appointment,
medical note), with the anchor date and retention window of its table's
RetentionPolicy and its content payload. -/
structure DepRecord where
  recId : Nat
  anchor : Nat
  window : Nat
  payload : String
deriving DecidableEq

/-- A record is still inside its mandatory retention window at the given
instant. -/
def inWindow (now : Nat) (r : DepRecord) : Bool :=
  decide (now < r.anchor + r.window)

/-- Modelled from the spec: the account fields the GDPR engine governs —
status, the personal fields that are nulled on erasure or restriction, and
the credential hash whose removal bars authentication. -/
structure GdprAccount where
  accountId : Nat
  status : Status
  email : Option String
  phone : Option String
  address : Option String
  secretHash : Option Nat
deriving DecidableEq

/-- An account can authenticate only while Active and holding a matching
credential (erased and restricted accounts are barred, spec rule 1). -/
def canAuthenticate (a : GdprAccount) (secret : String) : Bool :=
  decide (a.status = Status.Active) &&
    (match a.secretHash with
     | some h => decide (hashSecret secret = h)
     | none => false)

/-- The account together with its dependent records, as seen by the GDPR
engine. -/
structure GdprState where
  account : GdprAccount
  records : List DepRecord
deriving DecidableEq

/-- Outcome of the erasure operation of section 4.6. -/
inductive EraseOutcome
  | Erased
  | Restricted (reason : String)
deriving DecidableEq

/-- Modelled from the spec: the Erase/Restrict arbitration of section 4.6
(the engine is backend code absent from the repository).  When no dependent
record is inside any retention window, everything is deleted and the
account becomes an Erased tombstone; when at least one is, exactly the
records still inside their window are kept unmodified, the account becomes
Restricted, and personal fields not legally required are nulled.  Retention
always wins over erasure for rows still inside their window, and erasure
proceeds immediately for everything else. -/
def gdprErase (now : Nat) (s : GdprState) : EraseOutcome × GdprState :=
  if s.records.any (inWindow now) then
    (EraseOutcome.Restricted "dependent records under mandatory retention",
     { account :=
         { accountId := s.account.accountId, status := Status.Restricted
           email := none, phone := none, address := none, secretHash := none }
       records := s.records.filter (inWindow now) })
  else
    (EraseOutcome.Erased,
     { account :=
         { accountId := s.account.accountId, status := Status.Erased
           email := none, phone := none, address := none, secretHash := none }
       records := [] })

/-- C2: when no dependent record is inside any retention window, erasure
returns Erased and the account can no longer authenticate; when at least
one is, erasure returns Restricted, every record inside its window is
preserved unmodified (and nothing else survives, so no retained record is
ever deleted), the personal fields are nulled, and the account can no
longer authenticate. -/
theorem gdpr_erase_retention_arbitration (now : Nat) (s : GdprState) :
    ((∀ r ∈ s.records, inWindow now r = false) →
      (gdprErase now s).1 = EraseOutcome.Erased ∧
      ∀ secret, canAuthenticate (gdprErase now s).2.account secret = false) ∧
    ((∃ r ∈ s.records, inWindow now r = true) →
      (∃ reason, (gdprErase now s).1 = EraseOutcome.Restricted reason) ∧
      (∀ r ∈ s.records, inWindow now r = true →
        r ∈ (gdprErase now s).2.records) ∧
      (∀ r ∈ (gdprErase now s).2.records,
        r ∈ s.records ∧ inWindow now r = true) ∧
      (gdprErase now s).2.account.email = none ∧
      (gdprErase now s).2.account.phone = none ∧
      (gdprErase now s).2.account.address = none ∧
      ∀ secret, canAuthenticate (gdprErase now s).2.account secret = false) := by
  constructor
  · intro h
    have hany : s.records.any (inWindow now) = false := by
      rw [List.any_eq_false]
      intro r hr
      simp [h r hr]
    constructor
    · simp [gdprErase, hany]
    · intro secret
      simp [gdprErase, hany, canAuthenticate]
  · intro ⟨r, hr, hw⟩
    have hany : s.records.any (inWindow now) = true :=
      List.any_eq_true.mpr ⟨r, hr, hw⟩
    refine ⟨⟨"dependent records under mandatory retention", ?_⟩, ?_, ?_, ?_, ?_, ?_, ?_⟩
    · simp [gdprErase, hany]
    · intro q hq hqw
      simp only [gdprErase, hany, if_true]
      exact List.mem_filter.mpr ⟨hq, hqw⟩
    · intro q hq
      simp only [gdprErase, hany, if_true] at hq
      exact ⟨(List.mem_filter.mp hq).1, (List.mem_filter.mp hq).2⟩
    · simp [gdprErase, hany]
    · simp [gdprErase, hany]
    · simp [gdprErase, hany]
    · intro secret
      simp [gdprErase, hany, canAuthenticate]

/-- Witness for C2: an account with no retained records is Erased and
barred from login; an account with a medical note still inside its 7-year
window is Restricted, the note survives unmodified, the personal fields
are nulled, and login is barred. -/
theorem gdpr_erase_retention_arbitration_witness :
    ((gdprErase 400
        ⟨⟨9, Status.Active, some "p@x.test", some "0771", some "1 High St",
          some (hashSecret "pw")⟩, []⟩).1 = EraseOutcome.Erased ∧
      ∀ secret,
        canAuthenticate
          (gdprErase 400
            ⟨⟨9, Status.Active, some "p@x.test", some "0771", some "1 High St",
              some (hashSecret "pw")⟩, []⟩).2.account secret = false) ∧
    ((∃ reason,
        (gdprErase 400
          ⟨⟨9, Status.Active, some "p@x.test", some "0771", some "1 High St",
            some (hashSecret "pw")⟩,
           [⟨1, 100, 700, "note"⟩]⟩).1 = EraseOutcome.Restricted reason) ∧
      (∀ r ∈ [(⟨1, 100, 700, "note"⟩ : DepRecord)], inWindow 400 r = true →
        r ∈ (gdprErase 400
          ⟨⟨9, Status.Active, some "p@x.test", some "0771", some "1 High St",
            some (hashSecret "pw")⟩,
           [⟨1, 100, 700, "note"⟩]⟩).2.records) ∧
      (∀ r ∈ (gdprErase 400
          ⟨⟨9, Status.Active, some "p@x.test", some "0771", some "1 High St",
            some (hashSecret "pw")⟩,
           [⟨1, 100, 700, "note"⟩]⟩).2.records,
        r ∈ [(⟨1, 100, 700, "note"⟩ : DepRecord)] ∧ inWindow 400 r = true) ∧
      (gdprErase 400
        ⟨⟨9, Status.Active, some "p@x.test", some "0771", some "1 High St",
          some (hashSecret "pw")⟩,
         [⟨1, 100, 700, "note"⟩]⟩).2.account.email = none ∧
      (gdprErase 400
        ⟨⟨9, Status.Active, some "p@x.test", some "0771", some "1 High St",
          some (hashSecret "pw")⟩,
         [⟨1, 100, 700, "note"⟩]⟩).2.account.phone = none ∧
      (gdprErase 400
        ⟨⟨9, Status.Active, some "p@x.test", some "0771", some "1 High St",
          some (hashSecret "pw")⟩,
         [⟨1, 100, 700, "note"⟩]⟩).2.account.address = none ∧
      ∀ secret,
        canAuthenticate
          (gdprErase 400
            ⟨⟨9, Status.Active, some "p@x.test", some "0771", some "1 High St",
              some (hashSecret "pw")⟩,
             [⟨1, 100, 700, "note"⟩]⟩).2.account secret = false) :=
  ⟨(gdpr_erase_retention_arbitration 400
      ⟨⟨9, Status.Active, some "p@x.test", some "0771", some "1 High St",
        some (hashSecret "pw")⟩, []⟩).1 (by intro r hr; cases hr),
   (gdpr_erase_retention_arbitration 400
      ⟨⟨9, Status.Active, some "p@x.test", some "0771", some "1 High St",
        some (hashSecret "pw")⟩,
       [⟨1, 100, 700, "note"⟩]⟩).2
     ⟨⟨1, 100, 700, "note"⟩, List.mem_singleton.mpr rfl, by decide⟩⟩

end Clinic
